import Mathlib

/-!
# tiny-ssl-reverse-proxy: the request handler, the transport wrapper and the response rewriter

A shallow embedding of `main.go`.

* Go values that may be `nil` (the `*url.URL` held in the variable `url`, a header map,
  a returned `*http.Response`, an `error`) are `Option`s.
* A Go run-time panic is the constructor `Run.panicked`.
* The standard library is not part of the repository. What the program calls of it is either
  a parameter (`Env`: the URL parser and the network transport) or a small model of the
  documented behaviour (`bytesReplace`, `Header.Set`, `Header.Add`, `ReverseProxy.ServeHTTP`).
-/

namespace TinySSL

/-! ## Plain data -/

/-- A Go byte slice. -/
abbrev Bytes := List UInt8

/-- The conversion `[]byte(s)` of a Go string: the UTF-8 bytes of the text. -/
def stringBytes (s : String) : Bytes :=
  s.data.flatMap String.utf8EncodeChar

/-- Outcome of a Go computation that may panic instead of returning. -/
inductive Run (α : Type) where
  | ret (a : α)
  | panicked (reason : String)

/-- A Go `error` value, split by its dynamic type: the type assertion `err.(*net.OpError)`
succeeds exactly on `opError`. -/
inductive GoError where
  | opError (text : String)
  | other (text : String)
  deriving DecidableEq, Repr

/-- The type assertion `_, ok := err.(*net.OpError)` on a possibly nil error. -/
def isOpError : Option GoError → Bool
  | some (GoError.opError _) => true
  | _ => false

/-- The fields of `url.URL` the program touches. -/
structure URL where
  Scheme : String
  Host : String
  Path : String
  /-- the decoded key and value pairs of the query string, in order of appearance -/
  Query : List (String × String)
  deriving DecidableEq, Repr

/-- A response body as an `io.ReadCloser`: the bytes that reads deliver, the error (other than
EOF) that ends the reading, and the error of `Close`. -/
structure Body where
  data : Bytes
  readErr : Option GoError
  closeErr : Option GoError
  deriving DecidableEq

/-- The value `ioutil.NopCloser(r)` for an in-memory reader over `b`. -/
def NopCloser (b : Bytes) : Body := ⟨b, none, none⟩

/-- The result of `ioutil.ReadAll`. -/
def ReadAll (b : Body) : Bytes × Option GoError := (b.data, b.readErr)

/-- A non-nil `http.Header`: a Go map from (canonical) header names to lists of values. -/
abbrev HeaderMap := String → Option (List String)

/-- The empty, non-nil header map `make(http.Header)`. -/
def emptyHeader : HeaderMap := fun _ => none

/-- Map assignment `h[key] = []string{value}` done by `Header.Set` on a non-nil map. The three
keys the program uses are already in canonical form. -/
def HeaderMap.Set (h : HeaderMap) (key value : String) : HeaderMap :=
  fun k => if k = key then some [value] else h k

/-- Map update `h[key] = append(h[key], value)` done by `Header.Add` on a non-nil map. -/
def HeaderMap.Add (h : HeaderMap) (key value : String) : HeaderMap :=
  fun k => if k = key then some ((h k).getD [] ++ [value]) else h k

/-- The call `h.Set(key, value)` on a possibly nil map: writing to a nil map panics. -/
def HeaderSet (h : Option HeaderMap) (key value : String) : Run HeaderMap :=
  match h with
  | none => Run.panicked "assignment to entry in nil map"
  | some m => Run.ret (m.Set key value)

/-- The call `h.Add(key, value)` on a possibly nil map: writing to a nil map panics. -/
def HeaderAdd (h : Option HeaderMap) (key value : String) : Run HeaderMap :=
  match h with
  | none => Run.panicked "assignment to entry in nil map"
  | some m => Run.ret (m.Add key value)

/-- The values of a header in a possibly nil map (reading a nil map finds nothing). -/
def headerValues (h : Option HeaderMap) (key : String) : Option (List String) :=
  match h with
  | none => none
  | some m => m key

/-- The fields of `http.Response` the program touches. -/
structure Response where
  StatusCode : Nat
  Header : Option HeaderMap
  Body : Body
  ContentLength : Int

/-- The fields of `http.Request` the program touches. -/
structure Request where
  URL : URL
  Host : String
  RemoteAddr : String
  deriving DecidableEq, Repr

/-- What `RoundTrip` returns: the pair `(*http.Response, error)`. -/
abbrev RoundTripResult := Option Response × Option GoError

/-- An `http.RoundTripper`. -/
abbrev RoundTripper := Request → RoundTripResult

/-! ## Constants of `main.go` -/

/-- Version number. -/
def Version : String := "0.21.0"

/-- The fixed HTML page of the synthetic reply (`var message`). -/
def message : String :=
  "<!DOCTYPE html><html>\n<head>\n<title>\nBackend Unavailable\n</title>\n<style>\nbody \x7b\n\tfont-family: fantasy;\n\ttext-align: center;\n\tpadding-top: 20%;\n\tbackground-color: #f1f6f8;\n\x7d\n</style>\n</head>\n<body>\n<h1>503 Backend Unavailable</h1>\n<p>Sorry, we&lsquo;re having a brief problem. You can retry.</p>\n<p>If the problem persists, please get in touch.</p>\n</body>\n</html>"

/-- The constant `http.StatusServiceUnavailable`. -/
def StatusServiceUnavailable : Nat := 503

/-- The constant `http.StatusBadGateway`. -/
def StatusBadGateway : Nat := 502

/-- The constant `http.StatusOK`. -/
def StatusOK : Nat := 200

/-- The byte pattern `[]byte("background")` searched by `rewriteBody`. -/
def oldPattern : Bytes := stringBytes "background"

/-- The replacement `[]byte("Background")` written by `rewriteBody`. -/
def newPattern : Bytes := stringBytes "Background"

/-- The Content-Security-Policy value added by `rewriteBody`. -/
def cspValue : String :=
  "default-src * \x27unsafe-inline\x27 \x27unsafe-eval\x27; img-src * data:; script-src * ; script-src-elem * \x27unsafe-inline\x27 ; font-src * data:"

/-! ## `bytes.Replace` -/

/-- The scan of `bytes.Replace(s, old, new, -1)` for a non-empty `old`: `skip` counts the bytes
of the current match that are still to be passed over. With `skip = 0` the scan looks for `old`
at the current position; a match writes `new` and passes over the `len(old)` matched bytes, so
matches are found leftmost first and never overlap. -/
def replaceScan (old new : Bytes) : Nat → Bytes → Bytes
  | _, [] => []
  | skip + 1, _ :: rest => replaceScan old new skip rest
  | 0, c :: rest =>
      if old.isPrefixOf (c :: rest) then new ++ replaceScan old new (old.length - 1) rest
      else c :: replaceScan old new 0 rest

/-- The call `bytes.Replace(s, old, new, -1)` for a non-empty `old`: a copy of `s` with all
non-overlapping instances of `old` replaced by `new`. -/
def bytesReplace (s old new : Bytes) : Bytes := replaceScan old new 0 s

/-- The decimal text `strconv.Itoa(n)` of a length. -/
def Itoa (n : Nat) : String := toString n

/-! ## `ConnectionErrorHandler.RoundTrip` -/

/-- The response literal built in `RoundTrip` (lines 53 to 56): only `StatusCode` and `Body`
are given, so `Header` is the nil map and `ContentLength` is zero. -/
def unavailableResponse : Response :=
  { StatusCode := StatusServiceUnavailable
    Header := none
    Body := NopCloser (stringBytes message)
    ContentLength := 0 }

/-- The method `(c *ConnectionErrorHandler) RoundTrip`: `inner` is the embedded round tripper.
The log line written when `err != nil` is not part of the returned values. -/
def ConnectionErrorHandler.RoundTrip (inner : RoundTripper) (req : Request) : RoundTripResult :=
  let (resp, err) := inner req
  if isOpError err then (some unavailableResponse, none)
  else (resp, err)

/-! ## `rewriteBody` -/

/-- The function `rewriteBody`: the response as the function leaves it, and the returned
error. The three header writes go to `resp.Header`, which panics when that map is nil. The
copy of the body printed on standard output is not part of the result. -/
def rewriteBody (resp : Response) : Run (Response × Option GoError) :=
  let (b, err) := ReadAll resp.Body
  match err with
  | some e => Run.ret (resp, some e)
  | none =>
    match resp.Body.closeErr with
    | some e => Run.ret (resp, some e)
    | none =>
      let b := bytesReplace b oldPattern newPattern
      let resp := { resp with Body := NopCloser b, ContentLength := (b.length : Int) }
      match HeaderSet resp.Header "Content-Length" (Itoa b.length) with
      | Run.panicked p => Run.panicked p
      | Run.ret h1 =>
        match HeaderAdd (some h1) "Content-Security-Policy" cspValue with
        | Run.panicked p => Run.panicked p
        | Run.ret h2 =>
          match HeaderAdd (some h2) "Access-Control-Allow-Origin" "*" with
          | Run.panicked p => Run.panicked p
          | Run.ret h3 => Run.ret ({ resp with Header := some h3 }, none)

/-! ## The standard library pieces around the handler -/

/-- The parts of the outside world the handler calls. -/
structure Env where
  /-- the method `(*url.URL).Parse` on the possibly nil receiver held in `url`: it returns
  `(u, nil)` (`Except.ok u`) or `(nil, err)` (`Except.error err`), or panics on a nil receiver -/
  URLParse : Option URL → String → Run (Except GoError URL)
  /-- the method `http.DefaultTransport.RoundTrip` -/
  DefaultTransport : RoundTripper
  /-- the path that the director puts on the outbound request -/
  joinURLPath : URL → URL → String
  /-- the removal of the hop-by-hop headers from a non-nil response header map -/
  removeHopByHop : HeaderMap → HeaderMap

/-- The lookup `r.URL.Query()[key]`: the values of `key` in order; the key is present exactly
when the list is not empty. -/
def URL.QueryValues (u : URL) (key : String) : List String :=
  (u.Query.filter fun kv => kv.1 = key).map fun kv => kv.2

/-- The fields of `httputil.ReverseProxy` the program sets, and the target captured by the
director of `NewSingleHostReverseProxy`. -/
structure ReverseProxy where
  target : URL
  Transport : RoundTripper
  FlushInterval : Nat
  ModifyResponse : Option (Response → Run (Response × Option GoError))

/-- The director of `NewSingleHostReverseProxy(target)`: the outbound request is addressed to
the scheme and host of `target`; the `Host` field of the request is left as it is. -/
def director (env : Env) (target : URL) (req : Request) : Request :=
  { req with
    URL :=
      { Scheme := target.Scheme
        Host := target.Host
        Path := env.joinURLPath target req.URL
        Query := target.Query ++ req.URL.Query } }

/-- What the client gets for one request. -/
inductive ClientOutcome where
  /-- a reply with this status, these headers and this body -/
  | response (status : Nat) (header : HeaderMap) (body : Bytes)
  /-- the handler panicked before anything was written: the server closes the connection -/
  | aborted (reason : String)

/-- The helper `copyHeader(dst, src)` of the reverse proxy: every value of `src` is added to
`dst`; a nil `src` has no entries. -/
def copyHeader (dst : HeaderMap) (src : Option HeaderMap) : HeaderMap :=
  fun k =>
    match headerValues src k with
    | none => dst k
    | some [] => dst k
    | some (v :: vs) => some ((dst k).getD [] ++ v :: vs)

/-- One call of a reverse proxy. -/
structure Served where
  /-- the request handed to the transport -/
  outreq : Request
  /-- whether the response went through `ModifyResponse` -/
  modified : Bool
  client : ClientOutcome

/-- The body of `(*httputil.ReverseProxy).ServeHTTP` after the director has run, for a
response writer whose header map is `w` and to which nothing was written yet: whether
`ModifyResponse` was called, and what the client gets. A transport error, or an error returned
by `ModifyResponse`, goes to the default error handler, which replies 502. A panic inside
`ModifyResponse` is not recovered by the proxy. Otherwise the headers of the response are copied
after those of `w` and the status and body are written. -/
def ReverseProxy.reply (env : Env) (p : ReverseProxy) (w : HeaderMap) (outreq : Request) :
    Bool × ClientOutcome :=
  match p.Transport outreq with
  | (_, some _) => (false, ClientOutcome.response StatusBadGateway w [])
  | (none, none) => (false, ClientOutcome.aborted "nil pointer dereference")
  | (some res, none) =>
    let res := { res with Header := res.Header.map env.removeHopByHop }
    match p.ModifyResponse with
    | none =>
      (false, ClientOutcome.response res.StatusCode (copyHeader w res.Header) res.Body.data)
    | some f =>
      match f res with
      | Run.panicked reason => (true, ClientOutcome.aborted reason)
      | Run.ret (_, some _) => (true, ClientOutcome.response StatusBadGateway w [])
      | Run.ret (res, none) =>
        (true, ClientOutcome.response res.StatusCode (copyHeader w res.Header) res.Body.data)

/-- The method `(*httputil.ReverseProxy).ServeHTTP`: the director addresses the request to the
target, then the round trip and the reply follow. -/
def ReverseProxy.ServeHTTP (env : Env) (p : ReverseProxy) (w : HeaderMap) (r : Request) :
    Served :=
  { outreq := director env p.target r
    modified := (p.reply env w (director env p.target r)).1
    client := (p.reply env w (director env p.target r)).2 }

/-! ## The handler closure of `main` -/

/-- The two variables of `main` that the handler closure captures and assigns. -/
structure Shared where
  url : Option URL
  err : Option GoError

/-- The proxy `httpProxy` built once in `main` from the start-up URL (lines 88 to 91); the
closure knows it as the outer `originalHandler`. -/
def httpProxy (env : Env) (startup : URL) (flushInterval : Nat) : ReverseProxy :=
  { target := startup
    Transport := ConnectionErrorHandler.RoundTrip env.DefaultTransport
    FlushInterval := flushInterval
    ModifyResponse := some rewriteBody }

/-- The proxy built inside the override branch (lines 116 to 118): `ModifyResponse` is not
set there. -/
def overrideProxy (env : Env) (u : URL) (flushInterval : Nat) : ReverseProxy :=
  { target := u
    Transport := ConnectionErrorHandler.RoundTrip env.DefaultTransport
    FlushInterval := flushInterval
    ModifyResponse := none }

/-- How one run of the handler closure ends. -/
inductive HandlerOutcome where
  /-- a reverse proxy served the request -/
  | served (s : Served)
  /-- the closure returned without calling a proxy and without writing; `w` is the header map
  of the response writer -/
  | returned (w : HeaderMap)
  /-- the closure panicked -/
  | panicked (reason : String)

/-- The header map of the response writer after the `/_version` check (lines 99 to 101). -/
def versionHeader (r : Request) : HeaderMap :=
  if r.URL.Path = "/_version" then emptyHeader.Add "X-Tiny-SSL-Version" Version
  else emptyHeader

/-- The else branch of the closure (lines 122 to 124): `url.Host` is read through the pointer
`url`, and the outer `originalHandler` serves. -/
def handlerDefault (env : Env) (startup : URL) (flushInterval : Nat) (st : Shared)
    (w : HeaderMap) (r : Request) : Shared × HandlerOutcome :=
  match st.url with
  | none => (st, HandlerOutcome.panicked "nil pointer dereference")
  | some u =>
    let r := { r with Host := u.Host }
    (st, HandlerOutcome.served ((httpProxy env startup flushInterval).ServeHTTP env w r))

/-- The handler closure of `main` (lines 98 to 129), as a step on the captured variables. -/
def handler (env : Env) (startup : URL) (flushInterval : Nat) (st : Shared) (r : Request) :
    Shared × HandlerOutcome :=
  let w := versionHeader r
  match r.URL.QueryValues "_url" with
  | site :: _ =>
    if site.utf8ByteSize > 0 then
      match env.URLParse st.url site with
      | Run.panicked reason => (st, HandlerOutcome.panicked reason)
      | Run.ret (Except.error e) => (⟨none, some e⟩, HandlerOutcome.returned w)
      | Run.ret (Except.ok u) =>
        let r := { r with Host := u.Host }
        (⟨some u, none⟩,
          HandlerOutcome.served ((overrideProxy env u flushInterval).ServeHTTP env w r))
    else handlerDefault env startup flushInterval st w r
  | [] => handlerDefault env startup flushInterval st w r

/-- What the client gets at the end of one run of the closure. When the closure returns
without writing, the server sends an empty 200 reply with the headers of the writer; when it
panics, the server closes the connection. -/
def HandlerOutcome.client : HandlerOutcome → ClientOutcome
  | HandlerOutcome.served s => s.client
  | HandlerOutcome.returned w => ClientOutcome.response StatusOK w []
  | HandlerOutcome.panicked reason => ClientOutcome.aborted reason

/-- The values of a header that reach the client, if a reply reaches it at all. -/
def ClientOutcome.headerValues : ClientOutcome → String → Option (List String)
  | ClientOutcome.response _ h _, key => h key
  | ClientOutcome.aborted _, _ => none

/-- The state of the captured variables right after start-up: `url` is the parsed `-where`
value and `err` is nil. -/
def initial (startup : URL) : Shared := ⟨some startup, none⟩

/-- The handler run on a list of requests one after the other: the final variables and the
outcomes in order. -/
def serveAll (env : Env) (startup : URL) (flushInterval : Nat) :
    Shared → List Request → Shared × List HandlerOutcome
  | st, [] => (st, [])
  | st, r :: rs =>
    let (st1, o) := handler env startup flushInterval st r
    let (st2, os) := serveAll env startup flushInterval st1 rs
    (st2, o :: os)

/-! ## A reading of "every occurrence replaced", position by position -/

/-- The byte string `s` in which the first byte of every occurrence of `old` is `b` instead:
position by position, a byte that starts an occurrence of `old` becomes `b` and every other
byte stays. For `background` and `B` this is the text with every `background` capitalised. -/
def markOccurrences (old : Bytes) (b : UInt8) : Bytes → Bytes
  | [] => []
  | c :: rest => (if old.isPrefixOf (c :: rest) then b else c) :: markOccurrences old b rest

/-! ## Reading off an outcome -/

/-- The status of the reply that reaches the client, if one does. -/
def ClientOutcome.status : ClientOutcome → Option Nat
  | ClientOutcome.response st _ _ => some st
  | ClientOutcome.aborted _ => none

/-- The body of the reply that reaches the client, if one does. -/
def ClientOutcome.body : ClientOutcome → Option Bytes
  | ClientOutcome.response _ _ b => some b
  | ClientOutcome.aborted _ => none

/-- The request handed to the transport during one run of the closure, if any. -/
def HandlerOutcome.outreq : HandlerOutcome → Option Request
  | HandlerOutcome.served s => some s.outreq
  | _ => none

/-- Whether the response of one run of the closure went through `ModifyResponse`. -/
def HandlerOutcome.modified : HandlerOutcome → Bool
  | HandlerOutcome.served s => s.modified
  | _ => false

/-! ## The place of `background` in `message` -/

/-- The part of `message` before its `background`. -/
def messageHead : String :=
  "<!DOCTYPE html><html>\n<head>\n<title>\nBackend Unavailable\n</title>\n<style>\nbody \x7b\n\tfont-family: fantasy;\n\ttext-align: center;\n\tpadding-top: 20%;\n\t"

/-- The part of `message` after its `background`. -/
def messageTail : String :=
  "-color: #f1f6f8;\n\x7d\n</style>\n</head>\n<body>\n<h1>503 Backend Unavailable</h1>\n<p>Sorry, we&lsquo;re having a brief problem. You can retry.</p>\n<p>If the problem persists, please get in touch.</p>\n</body>\n</html>"

/-! ## The properties claimed of `rewriteBody` -/

/-- The body part of the contract of `rewriteBody` at `resp`: the call returns without error,
the new body is the old one with every occurrence of `background` turned into `Background`
(same length; at every place where `background` started, `Background` now starts; every byte
that does not start an occurrence is unchanged; no `background` is left), and both the
`ContentLength` field and the `Content-Length` header give the length of the new body. -/
def RewritesBody (resp : Response) : Prop :=
  ∃ out : Response, rewriteBody resp = Run.ret (out, none) ∧
    out.Body = NopCloser out.Body.data ∧
    out.Body.data = bytesReplace resp.Body.data oldPattern newPattern ∧
    out.Body.data.length = resp.Body.data.length ∧
    (∀ i, oldPattern <+: resp.Body.data.drop i → newPattern <+: out.Body.data.drop i) ∧
    (∀ i, ¬ oldPattern <+: resp.Body.data.drop i → out.Body.data[i]? = resp.Body.data[i]?) ∧
    ¬ oldPattern <:+: out.Body.data ∧
    out.ContentLength = (out.Body.data.length : Int) ∧
    headerValues out.Header "Content-Length" = some [Itoa out.Body.data.length]

/-- The header part of the contract of `rewriteBody` at `resp`: the call returns without error,
the two policy values come after the values the two headers had, and every header other than
these two and `Content-Length` is as it was. -/
def AppendsPolicyHeaders (resp : Response) : Prop :=
  ∃ out : Response, rewriteBody resp = Run.ret (out, none) ∧
    headerValues out.Header "Content-Security-Policy"
      = some ((headerValues resp.Header "Content-Security-Policy").getD [] ++ [cspValue]) ∧
    headerValues out.Header "Access-Control-Allow-Origin"
      = some ((headerValues resp.Header "Access-Control-Allow-Origin").getD [] ++ ["*"]) ∧
    ∀ k, k ≠ "Content-Security-Policy" → k ≠ "Access-Control-Allow-Origin" →
      k ≠ "Content-Length" → headerValues out.Header k = headerValues resp.Header k

/-! ## Sample surroundings for the worked examples -/

/-- The bytes of `background` after the first one. -/
def patternTail : Bytes := stringBytes "ackground"

/-- A sample of `(*url.URL).Parse`, right on the two strings the examples use: the absolute
URL `http://b.example/` is accepted and, being absolute, resolves to itself whatever the
receiver is; `:foo` is rejected (net/url reports a missing protocol scheme) and so, here, is
every other string. -/
def sampleParse : Option URL → String → Run (Except GoError URL)
  | _, "http://b.example/" => Run.ret (Except.ok ⟨"http", "b.example", "/", []⟩)
  | _, _ => Run.ret (Except.error (GoError.other "missing protocol scheme"))

/-- A page served by the sample backends: status 200, one header, the body `background`. -/
def samplePage : Response :=
  { StatusCode := StatusOK
    Header := some (emptyHeader.Set "Content-Type" "text/html")
    Body := NopCloser (stringBytes "background")
    ContentLength := 10 }

/-- A sample network: the host `down.example` refuses connections (a `*net.OpError`), every
other host answers with `samplePage`. -/
def sampleTransport : RoundTripper := fun req =>
  if req.URL.Host = "down.example" then
    (none, some (GoError.opError "dial tcp: connect: connection refused"))
  else (some samplePage, none)

/-- The sample surroundings: request paths are kept and no header is hop-by-hop. -/
def sampleEnv : Env :=
  { URLParse := sampleParse
    DefaultTransport := sampleTransport
    joinURLPath := fun _ u => u.Path
    removeHopByHop := fun h => h }

/-- A start-up target that answers. -/
def upURL : URL := ⟨"http", "a.example", "/", []⟩

/-- A start-up target that refuses connections. -/
def downURL : URL := ⟨"http", "down.example", "/", []⟩

/-- A request for `path` with the given decoded query pairs. -/
def sampleRequest (path : String) (query : List (String × String)) : Request :=
  { URL := ⟨"", "", path, query⟩, Host := "proxy.example", RemoteAddr := "192.0.2.1:4711" }

/-- A response whose body can be read but whose `Close` fails. -/
def closeFailing : Response :=
  { samplePage with Body := ⟨stringBytes "background", none, some (GoError.other "close")⟩ }

/-! ## Lemmas on the scan -/

theorem replaceScan_skip (old new : Bytes) (u s : Bytes) :
    replaceScan old new u.length (u ++ s) = replaceScan old new 0 s := by
  induction u with
  | nil => rfl
  | cons c u ih => simpa [replaceScan] using ih

theorem markOccurrences_append (a b : UInt8) (t u s : Bytes) (hu : a ∉ u) :
    markOccurrences (a :: t) b (u ++ s) = u ++ markOccurrences (a :: t) b s := by
  induction u with
  | nil => rfl
  | cons c u ih =>
    have hc : a ≠ c := fun h => hu (by simp [h])
    have hu2 : a ∉ u := fun h => hu (List.mem_cons_of_mem _ h)
    simp [markOccurrences, List.isPrefixOf, hc, ih hu2]

theorem replaceScan_eq_mark (a b : UInt8) (t : Bytes) (ht : a ∉ t) :
    ∀ (n : Nat) (s : Bytes), s.length ≤ n →
      replaceScan (a :: t) (b :: t) 0 s = markOccurrences (a :: t) b s := by
  intro n
  induction n with
  | zero =>
    intro s hs
    have : s = [] := List.length_eq_zero.mp (Nat.le_zero.mp hs)
    subst this; rfl
  | succ n ih =>
    intro s hs
    cases s with
    | nil => rfl
    | cons c rest =>
      have hlen : rest.length ≤ n := by simpa using hs
      by_cases hp : (a :: t).isPrefixOf (c :: rest) = true
      · have hpre : (a :: t) <+: (c :: rest) := List.isPrefixOf_iff_prefix.mp hp
        obtain ⟨q, hq⟩ := hpre
        have hrest : rest = t ++ q := by
          simp at hq; exact hq.2.symm
        have hq_len : q.length ≤ n := by
          rw [hrest] at hlen; simp at hlen; omega
        simp only [replaceScan, markOccurrences, hp, if_true, List.length_cons,
          Nat.add_sub_cancel, List.cons_append]
        rw [hrest, replaceScan_skip, markOccurrences_append a b t t q ht, ih q hq_len]
      · simp only [replaceScan, markOccurrences, hp]
        simp [ih rest hlen]

theorem bytesReplace_eq_mark (a b : UInt8) (t s : Bytes) (ht : a ∉ t) :
    bytesReplace s (a :: t) (b :: t) = markOccurrences (a :: t) b s :=
  replaceScan_eq_mark a b t ht s.length s (Nat.le_refl _)

theorem markOccurrences_length (old : Bytes) (b : UInt8) (s : Bytes) :
    (markOccurrences old b s).length = s.length := by
  induction s with
  | nil => rfl
  | cons c rest ih => simp [markOccurrences, ih]

theorem markOccurrences_drop (old : Bytes) (b : UInt8) (i : Nat) (s : Bytes) :
    (markOccurrences old b s).drop i = markOccurrences old b (s.drop i) := by
  induction i generalizing s with
  | zero => rfl
  | succ i ih =>
    cases s with
    | nil => rfl
    | cons c rest => simpa [markOccurrences] using ih rest

theorem markOccurrences_prefix (a b : UInt8) (t s : Bytes) (ht : a ∉ t)
    (h : (a :: t) <+: s) : (b :: t) <+: markOccurrences (a :: t) b s := by
  obtain ⟨q, rfl⟩ := h
  have hp : (a :: t).isPrefixOf (a :: (t ++ q)) = true :=
    List.isPrefixOf_iff_prefix.mpr ⟨q, rfl⟩
  have e : markOccurrences (a :: t) b (a :: (t ++ q))
      = b :: markOccurrences (a :: t) b (t ++ q) := by
    simp only [markOccurrences, hp, if_true]
  refine ⟨markOccurrences (a :: t) b q, ?_⟩
  show b :: (t ++ markOccurrences (a :: t) b q) = markOccurrences (a :: t) b (a :: (t ++ q))
  rw [e, markOccurrences_append a b t t q ht]

theorem markOccurrences_head (old : Bytes) (b : UInt8) (s : Bytes)
    (h : ¬ old <+: s) : (markOccurrences old b s).head? = s.head? := by
  cases s with
  | nil => rfl
  | cons c rest =>
    have hp : ¬ old.isPrefixOf (c :: rest) = true := fun hp => h (List.isPrefixOf_iff_prefix.mp hp)
    simp [markOccurrences, hp]

theorem markOccurrences_unmark (a b : UInt8) (t : Bytes) (u q s : Bytes) (hu : b ∉ u)
    (h : markOccurrences (a :: t) b s = u ++ q) : u <+: s := by
  induction u generalizing s with
  | nil => exact List.nil_prefix
  | cons x u ih =>
    cases s with
    | nil => simp [markOccurrences] at h
    | cons c rest =>
      have hx : b ≠ x := fun e => hu (by simp [e])
      have hu2 : b ∉ u := fun e => hu (List.mem_cons_of_mem _ e)
      simp only [markOccurrences, List.cons_append, List.cons.injEq] at h
      obtain ⟨h1, h2⟩ := h
      have hcx : c = x := by
        by_cases hp : (a :: t).isPrefixOf (c :: rest) = true
        · rw [if_pos hp] at h1; exact absurd h1 hx
        · rw [if_neg hp] at h1; exact h1
      subst hcx
      obtain ⟨q2, hq2⟩ := ih rest hu2 h2
      exact ⟨q2, by simp [hq2]⟩

theorem markOccurrences_no_infix (a b : UInt8) (t s : Bytes) (hab : a ≠ b) (hb : b ∉ t) :
    ¬ (a :: t) <:+: markOccurrences (a :: t) b s := by
  rintro ⟨p, q, hpq⟩
  have hdrop : markOccurrences (a :: t) b (s.drop p.length) = (a :: t) ++ q := by
    rw [← markOccurrences_drop, ← hpq]; simp
  cases hs : s.drop p.length with
  | nil => rw [hs] at hdrop; simp [markOccurrences] at hdrop
  | cons c rest =>
    rw [hs] at hdrop
    simp only [markOccurrences, List.cons_append, List.cons.injEq] at hdrop
    obtain ⟨h1, h2⟩ := hdrop
    by_cases hp : (a :: t).isPrefixOf (c :: rest) = true
    · rw [if_pos hp] at h1; exact hab h1.symm
    · rw [if_neg hp] at h1
      rw [h1] at hp
      obtain ⟨q2, hq2⟩ := markOccurrences_unmark a b t t q rest hb h2
      exact hp (List.isPrefixOf_iff_prefix.mpr ⟨q2, by simp [hq2]⟩)

/-! ## The two patterns -/

theorem oldPattern_eq : oldPattern = 98 :: patternTail := by decide

theorem newPattern_eq : newPattern = 66 :: patternTail := by decide

theorem old_head_not_in_tail : (98 : UInt8) ∉ patternTail := by decide

theorem new_head_not_in_tail : (66 : UInt8) ∉ patternTail := by decide

theorem bytesReplace_patterns (s : Bytes) :
    bytesReplace s oldPattern newPattern = markOccurrences oldPattern 66 s := by
  rw [oldPattern_eq, newPattern_eq]
  exact bytesReplace_eq_mark 98 66 patternTail s old_head_not_in_tail

/-! ## `rewriteBody` on a response with a header map -/

theorem rewriteBody_ok (resp : Response) (h : HeaderMap) (hh : resp.Header = some h)
    (hr : resp.Body.readErr = none) (hc : resp.Body.closeErr = none) :
    rewriteBody resp = Run.ret
      ({ resp with
          Body := NopCloser (bytesReplace resp.Body.data oldPattern newPattern)
          ContentLength := ((bytesReplace resp.Body.data oldPattern newPattern).length : Int)
          Header := some (((h.Set "Content-Length"
              (Itoa (bytesReplace resp.Body.data oldPattern newPattern).length)).Add
              "Content-Security-Policy" cspValue).Add "Access-Control-Allow-Origin" "*") },
        none) := by
  simp [rewriteBody, ReadAll, hr, hc, hh, HeaderSet, HeaderAdd]

theorem rewriteBody_nil_header (resp : Response) (hh : resp.Header = none)
    (hr : resp.Body.readErr = none) (hc : resp.Body.closeErr = none) :
    rewriteBody resp = Run.panicked "assignment to entry in nil map" := by
  simp [rewriteBody, ReadAll, hr, hc, hh, HeaderSet]

/-! ## The transport wrapper -/

/-- C4: when the wrapped transport fails with a `*net.OpError`, `RoundTrip` returns a nil error
and a response whose status code is 503 and whose body reads, without error, exactly the bytes
of `message`. -/
theorem roundTrip_opError_gives_503 (inner : RoundTripper) (req : Request) (text : String)
    (h : (inner req).2 = some (GoError.opError text)) :
    ∃ r : Response, ConnectionErrorHandler.RoundTrip inner req = (some r, none) ∧
      r.StatusCode = 503 ∧ ReadAll r.Body = (stringBytes message, none) ∧
      r.Body.closeErr = none := by
  refine ⟨unavailableResponse, ?_, rfl, rfl, rfl⟩
  unfold ConnectionErrorHandler.RoundTrip
  rcases hi : inner req with ⟨resp, err⟩
  rw [hi] at h
  have he : err = some (GoError.opError text) := h
  subst he
  rfl

/-- Witness for C4: the sample network refuses the connection to `down.example`. -/
theorem roundTrip_opError_gives_503_witness :
    ∃ r : Response,
      ConnectionErrorHandler.RoundTrip sampleTransport (sampleRequest "/" []
        |> director sampleEnv downURL) = (some r, none) ∧
      r.StatusCode = 503 ∧ ReadAll r.Body = (stringBytes message, none) ∧
      r.Body.closeErr = none :=
  roundTrip_opError_gives_503 sampleTransport _ "dial tcp: connect: connection refused" rfl

/-- C5: when the wrapped transport succeeds (nil error), or fails with an error that is not a
`*net.OpError`, `RoundTrip` returns exactly the pair the wrapped transport returned. -/
theorem roundTrip_passes_through (inner : RoundTripper) (req : Request)
    (h : (inner req).2 = none ∨ ∃ text, (inner req).2 = some (GoError.other text)) :
    ConnectionErrorHandler.RoundTrip inner req = inner req := by
  unfold ConnectionErrorHandler.RoundTrip
  rcases hi : inner req with ⟨resp, err⟩
  rw [hi] at h
  rcases h with h | ⟨text, h⟩
  · have he : err = none := h
    subst he
    rfl
  · have he : err = some (GoError.other text) := h
    subst he
    rfl

/-- Witness for C5: the sample network answers for `a.example`, and the page comes back as
it is. -/
theorem roundTrip_passes_through_witness :
    ConnectionErrorHandler.RoundTrip sampleTransport (director sampleEnv upURL
        (sampleRequest "/" [])) = (some samplePage, none) :=
  roundTrip_passes_through sampleTransport _ (Or.inl rfl)

/-! ## The response rewriter -/

/-- C6, evaluated: the response that `RoundTrip` synthesises and that the start-up proxy hands
to `rewriteBody` has a body that reads and closes without error and a nil header map;
`rewriteBody` panics on it at the write of `Content-Length`, so no rewritten body and no
content length come out. -/
theorem rewritesBody_fails_on_nil_header :
    unavailableResponse.Body.readErr = none ∧ unavailableResponse.Body.closeErr = none ∧
      unavailableResponse.Header.isNone = true ∧
      rewriteBody unavailableResponse = Run.panicked "assignment to entry in nil map" ∧
      ¬ RewritesBody unavailableResponse := by
  refine ⟨rfl, rfl, rfl, rfl, ?_⟩
  rintro ⟨out, hout, -⟩
  rw [rewriteBody_nil_header unavailableResponse rfl rfl rfl] at hout
  cases hout

/-- The body contract of `rewriteBody` where it holds: for every response with a non-nil
header map whose body can be read and closed without error, `rewriteBody` returns without
error, the new body is the old one with every occurrence of `background` replaced by
`Background` (so none remains), and the `ContentLength` field and the `Content-Length` header
both give the length of the new body. -/
theorem rewriteBody_replaces_every_occurrence (resp : Response) (h : HeaderMap)
    (hh : resp.Header = some h) (hr : resp.Body.readErr = none)
    (hc : resp.Body.closeErr = none) : RewritesBody resp := by
  refine ⟨_, rewriteBody_ok resp h hh hr hc, rfl, rfl, ?_, ?_, ?_, ?_, rfl, ?_⟩
  · show (bytesReplace resp.Body.data oldPattern newPattern).length = _
    rw [bytesReplace_patterns, markOccurrences_length]
  · intro i hi
    show newPattern <+: (bytesReplace resp.Body.data oldPattern newPattern).drop i
    rw [bytesReplace_patterns, markOccurrences_drop, newPattern_eq, oldPattern_eq]
    rw [oldPattern_eq] at hi
    exact markOccurrences_prefix 98 66 patternTail _ old_head_not_in_tail hi
  · intro i hi
    show (bytesReplace resp.Body.data oldPattern newPattern)[i]? = _
    rw [bytesReplace_patterns, ← List.head?_drop, ← List.head?_drop, markOccurrences_drop]
    exact markOccurrences_head oldPattern 66 _ hi
  · show ¬ oldPattern <:+: bytesReplace resp.Body.data oldPattern newPattern
    rw [bytesReplace_patterns, oldPattern_eq]
    exact markOccurrences_no_infix 98 66 patternTail _ (by decide) new_head_not_in_tail
  · simp [headerValues, HeaderMap.Add, HeaderMap.Set, NopCloser]

/-- The body contract at the sample page, which has a header map and an in-memory body. -/
theorem rewriteBody_replaces_every_occurrence_witness : RewritesBody samplePage :=
  rewriteBody_replaces_every_occurrence samplePage (emptyHeader.Set "Content-Type" "text/html")
    rfl rfl rfl

/-- C9, the claim as stated fails: on the synthesised response (readable body, nil header map)
`rewriteBody` panics at its first header write, and on a response whose body reads but does
not close without error it returns the error before any header is written. -/
theorem appendsPolicyHeaders_fails :
    (unavailableResponse.Body.readErr = none ∧ ¬ AppendsPolicyHeaders unavailableResponse) ∧
      (closeFailing.Body.readErr = none ∧ ¬ AppendsPolicyHeaders closeFailing) := by
  refine ⟨⟨rfl, ?_⟩, ⟨rfl, ?_⟩⟩
  · rintro ⟨out, hout, -⟩
    rw [rewriteBody_nil_header unavailableResponse rfl rfl rfl] at hout
    cases hout
  · rintro ⟨out, hout, -⟩
    have : rewriteBody closeFailing = Run.ret (closeFailing, some (GoError.other "close")) := rfl
    rw [this] at hout
    cases hout

/-- C9 (amended): for every response with a non-nil header map whose body can be read and
closed without error, `rewriteBody` puts its Content-Security-Policy value and `*` for
Access-Control-Allow-Origin after the values those headers already had (all kept, in order),
and leaves every header other than these two and Content-Length unchanged. -/
theorem rewriteBody_appends_policy_headers (resp : Response) (h : HeaderMap)
    (hh : resp.Header = some h) (hr : resp.Body.readErr = none)
    (hc : resp.Body.closeErr = none) : AppendsPolicyHeaders resp := by
  refine ⟨_, rewriteBody_ok resp h hh hr hc, ?_, ?_, ?_⟩
  · simp [headerValues, HeaderMap.Add, HeaderMap.Set, hh]
  · simp [headerValues, HeaderMap.Add, HeaderMap.Set, hh]
  · intro k h1 h2 h3
    simp [headerValues, HeaderMap.Add, HeaderMap.Set, hh, h1, h2, h3]

/-- Witness for C9 (amended): the sample page. -/
theorem rewriteBody_appends_policy_headers_witness : AppendsPolicyHeaders samplePage :=
  rewriteBody_appends_policy_headers samplePage (emptyHeader.Set "Content-Type" "text/html")
    rfl rfl rfl

/-! ## The handler closure -/

theorem utf8ByteSize_go_pos (c : Char) (cs : List Char) :
    0 < String.utf8ByteSize.go (c :: cs) := by
  have := Char.utf8Size_pos c
  simp only [String.utf8ByteSize.go]
  omega

theorem utf8ByteSize_pos (s : String) (h : s ≠ "") : 0 < s.utf8ByteSize := by
  obtain ⟨l⟩ := s
  cases l with
  | nil => exact absurd rfl h
  | cons c cs => exact utf8ByteSize_go_pos c cs

theorem serveHTTP_outreq (env : Env) (p : ReverseProxy) (w : HeaderMap) (r : Request) :
    (p.ServeHTTP env w r).outreq = director env p.target r := by
  rfl

theorem copyHeader_nil (w : HeaderMap) : copyHeader w none = w := by
  funext k
  rfl

theorem overrideProxy_client_ok (env : Env) (u : URL) (fi : Nat) (w : HeaderMap)
    (r : Request) (res : Response)
    (ht : env.DefaultTransport (director env u r) = (some res, none)) :
    ((overrideProxy env u fi).ServeHTTP env w r).client
      = ClientOutcome.response res.StatusCode
          (copyHeader w (res.Header.map env.removeHopByHop)) res.Body.data := by
  show ((overrideProxy env u fi).reply env w (director env u r)).2 = _
  simp [ReverseProxy.reply, overrideProxy, ConnectionErrorHandler.RoundTrip, ht, isOpError]

theorem overrideProxy_client_opError (env : Env) (u : URL) (fi : Nat) (w : HeaderMap)
    (r : Request) (resp : Option Response) (text : String)
    (ht : env.DefaultTransport (director env u r) = (resp, some (GoError.opError text))) :
    ((overrideProxy env u fi).ServeHTTP env w r).client
      = ClientOutcome.response 503 w (stringBytes message) := by
  show ((overrideProxy env u fi).reply env w (director env u r)).2 = _
  simp [ReverseProxy.reply, overrideProxy, ConnectionErrorHandler.RoundTrip, ht, isOpError,
    unavailableResponse, copyHeader_nil, NopCloser, StatusServiceUnavailable]

theorem overrideProxy_client_other (env : Env) (u : URL) (fi : Nat) (w : HeaderMap)
    (r : Request) (resp : Option Response) (text : String)
    (ht : env.DefaultTransport (director env u r) = (resp, some (GoError.other text))) :
    ((overrideProxy env u fi).ServeHTTP env w r).client
      = ClientOutcome.response 502 w [] := by
  show ((overrideProxy env u fi).reply env w (director env u r)).2 = _
  simp [ReverseProxy.reply, overrideProxy, ConnectionErrorHandler.RoundTrip, ht, isOpError,
    StatusBadGateway]

/-- C1: a request whose `_url` parameter has a non-empty first value that `url.Parse` accepts
is forwarded to the parsed URL, and the shared variable `url` is assigned the parsed URL. The
closure hands to a reverse proxy built for that URL the request with `Host` set to the host of
that URL; the outbound request is addressed to the scheme and host of that URL; and the reply
to the client is the one that the round trip of this outbound request through
`http.DefaultTransport` gives: the response of that backend (status, body, and headers after
those of the writer), the 503 page when the round trip fails with a `*net.OpError`, and 502
when it fails otherwise. -/
theorem handler_override_forwards_and_reassigns (env : Env) (startup : URL) (fi : Nat)
    (st : Shared) (r : Request) (site : String) (rest : List String) (u : URL)
    (hq : r.URL.QueryValues "_url" = site :: rest) (hne : site ≠ "")
    (hp : env.URLParse st.url site = Run.ret (Except.ok u)) :
    ∃ s : Served,
      handler env startup fi st r = (⟨some u, none⟩, HandlerOutcome.served s) ∧
      s = (overrideProxy env u fi).ServeHTTP env (versionHeader r) { r with Host := u.Host } ∧
      (overrideProxy env u fi).target = u ∧
      s.outreq = director env u { r with Host := u.Host } ∧
      s.outreq.Host = u.Host ∧ s.outreq.URL.Scheme = u.Scheme ∧
      s.outreq.URL.Host = u.Host ∧
      (∀ res : Response, env.DefaultTransport s.outreq = (some res, none) →
        s.client = ClientOutcome.response res.StatusCode
          (copyHeader (versionHeader r) (res.Header.map env.removeHopByHop)) res.Body.data) ∧
      (∀ (resp : Option Response) (text : String),
        env.DefaultTransport s.outreq = (resp, some (GoError.opError text)) →
        s.client = ClientOutcome.response 503 (versionHeader r) (stringBytes message)) ∧
      (∀ (resp : Option Response) (text : String),
        env.DefaultTransport s.outreq = (resp, some (GoError.other text)) →
        s.client = ClientOutcome.response 502 (versionHeader r) []) := by
  refine ⟨_, ?_, rfl, rfl, rfl, rfl, rfl, rfl, ?_, ?_, ?_⟩
  · simp only [handler, hq, utf8ByteSize_pos site hne, gt_iff_lt, if_true, hp]
  · intro res ht
    exact overrideProxy_client_ok env u fi _ _ res ht
  · intro resp text ht
    exact overrideProxy_client_opError env u fi _ _ resp text ht
  · intro resp text ht
    exact overrideProxy_client_other env u fi _ _ resp text ht

/-- Witness for C1: the first request to a proxy started for `a.example` asks for
`http://b.example/`; the outbound request goes to `b.example` and the client gets the page
that the sample network serves there. -/
theorem handler_override_forwards_and_reassigns_witness :
    ∃ s : Served,
      handler sampleEnv upURL 0 (initial upURL)
          (sampleRequest "/" [("_url", "http://b.example/")])
        = (⟨some ⟨"http", "b.example", "/", []⟩, none⟩, HandlerOutcome.served s) ∧
      s.outreq = { URL := ⟨"http", "b.example", "/", [("_url", "http://b.example/")]⟩
                   Host := "b.example", RemoteAddr := "192.0.2.1:4711" } ∧
      s.client.status = some 200 ∧ s.client.body = some (stringBytes "background") := by
  obtain ⟨s, h1, _, _, h4, _, _, _, hok, _, _⟩ :=
    handler_override_forwards_and_reassigns sampleEnv upURL 0 (initial upURL)
      (sampleRequest "/" [("_url", "http://b.example/")]) "http://b.example/" []
      ⟨"http", "b.example", "/", []⟩ (by decide) (by decide) rfl
  have hc := hok samplePage (by rw [h4]; rfl)
  exact ⟨s, h1, by rw [h4]; rfl, by rw [hc]; rfl, by rw [hc]; rfl⟩

/-- The else branch on any state with a non-nil `url`: the request is served by the proxy
built at start-up, so it is addressed to the start-up target, and only its `Host` field follows
the variable `url`. -/
theorem handlerDefault_goes_to_startup (env : Env) (startup u : URL) (fi : Nat)
    (err : Option GoError) (w : HeaderMap) (r : Request) :
    ∃ s : Served,
      handlerDefault env startup fi ⟨some u, err⟩ w r = (⟨some u, err⟩, HandlerOutcome.served s) ∧
      s.outreq.URL.Scheme = startup.Scheme ∧ s.outreq.URL.Host = startup.Host ∧
      s.outreq.Host = u.Host :=
  ⟨_, rfl, rfl, rfl, rfl⟩

/-- The override branch on a value that the parser rejects, on any state: `url` becomes nil,
`err` holds the error, and the closure returns without calling any proxy. -/
theorem handler_rejected_override (env : Env) (startup : URL) (fi : Nat) (st : Shared)
    (r : Request) (site : String) (rest : List String) (e : GoError)
    (hq : r.URL.QueryValues "_url" = site :: rest) (hne : site ≠ "")
    (hp : env.URLParse st.url site = Run.ret (Except.error e)) :
    handler env startup fi st r = (⟨none, some e⟩, HandlerOutcome.returned (versionHeader r)) := by
  simp only [handler, hq, utf8ByteSize_pos site hne, gt_iff_lt, if_true, hp]

/-- C2, evaluated: a proxy started for `a.example` gets a request with the valid override
`http://b.example/` and then a request without override. After the first, `url` is the
override; the second is still addressed to the start-up host `a.example`, with `Host` set to
`b.example`. -/
theorem request_after_override_goes_to_startup_target :
    (serveAll sampleEnv upURL 0 (initial upURL)
        [sampleRequest "/" [("_url", "http://b.example/")], sampleRequest "/next" []]).1.url
      = some ⟨"http", "b.example", "/", []⟩ ∧
    (serveAll sampleEnv upURL 0 (initial upURL)
        [sampleRequest "/" [("_url", "http://b.example/")],
          sampleRequest "/next" []]).2.map HandlerOutcome.outreq
      = [some { URL := ⟨"http", "b.example", "/", [("_url", "http://b.example/")]⟩
                Host := "b.example", RemoteAddr := "192.0.2.1:4711" },
         some { URL := ⟨"http", "a.example", "/next", []⟩
                Host := "b.example", RemoteAddr := "192.0.2.1:4711" }] := by
  constructor <;> rfl

/-- C3, evaluated: a proxy started for `a.example` gets a request with the override `:foo`,
which the parser rejects, and then a request without override. The first is not handed to any
transport and the client gets an empty 200 reply; `url` is nil afterwards; the second panics on
`url.Host` and gets no reply. -/
theorem rejected_override_drops_request_and_clears_url :
    (serveAll sampleEnv upURL 0 (initial upURL)
        [sampleRequest "/" [("_url", ":foo")], sampleRequest "/next" []]).1.url = none ∧
    (serveAll sampleEnv upURL 0 (initial upURL)
        [sampleRequest "/" [("_url", ":foo")],
          sampleRequest "/next" []]).2.map HandlerOutcome.outreq = [none, none] ∧
    (serveAll sampleEnv upURL 0 (initial upURL)
        [sampleRequest "/" [("_url", ":foo")],
          sampleRequest "/next" []]).2.map (fun o => (o.client.status, o.client.body))
      = [(some 200, some []), (none, none)] := by
  refine ⟨?_, ?_, ?_⟩ <;> rfl

/-- C7, evaluated: the page of `b.example` reached through the override `http://b.example/`
does not go through `rewriteBody`: the client gets the body `background` as it was and neither
policy header. The same page of `a.example` reached without override is rewritten and carries
both. -/
theorem override_response_is_not_rewritten :
    (let o := (handler sampleEnv upURL 0 (initial upURL)
        (sampleRequest "/" [("_url", "http://b.example/")])).2
     o.modified = false ∧ o.client.status = some 200 ∧
       o.client.body = some (stringBytes "background") ∧
       o.client.headerValues "Content-Security-Policy" = none ∧
       o.client.headerValues "Access-Control-Allow-Origin" = none) ∧
    (let o := (handler sampleEnv upURL 0 (initial upURL) (sampleRequest "/" [])).2
     o.modified = true ∧ o.client.status = some 200 ∧
       o.client.body = some (stringBytes "Background") ∧
       o.client.headerValues "Content-Security-Policy" = some [cspValue] ∧
       o.client.headerValues "Access-Control-Allow-Origin" = some ["*"]) := by
  refine ⟨⟨?_, ?_, ?_, ?_, ?_⟩, ⟨?_, ?_, ?_, ?_, ?_⟩⟩ <;> rfl

set_option maxRecDepth 20000 in
theorem message_contains_background :
    stringBytes message = stringBytes messageHead ++ (oldPattern ++ stringBytes messageTail) := by
  rfl

/-- C8, evaluated: the start-up target `down.example` refuses the connection. `RoundTrip`
returns the synthesised response, whose header map is nil; `rewriteBody` panics on it at the
write of `Content-Length`; the client gets no reply, so no status 503, no body and no content
length. Besides, the replacement that `rewriteBody` does before that write changes the page:
`message` contains `background`. -/
theorem synthetic_503_panics_in_rewriteBody :
    ConnectionErrorHandler.RoundTrip sampleTransport
        (director sampleEnv downURL (sampleRequest "/" []))
      = (some unavailableResponse, none) ∧
    unavailableResponse.Header.isNone = true ∧
    rewriteBody unavailableResponse = Run.panicked "assignment to entry in nil map" ∧
    (let o := (handler sampleEnv downURL 0 (initial downURL) (sampleRequest "/" [])).2
     o.modified = true ∧ o.client.status = none ∧ o.client.body = none ∧
       o.client.headerValues "Content-Length" = none) ∧
    bytesReplace (stringBytes message) oldPattern newPattern ≠ stringBytes message := by
  refine ⟨rfl, rfl, rfl, ⟨rfl, rfl, rfl, rfl⟩, ?_⟩
  intro h
  have hno : ¬ oldPattern <:+: bytesReplace (stringBytes message) oldPattern newPattern := by
    rw [bytesReplace_patterns, oldPattern_eq]
    exact markOccurrences_no_infix 98 66 patternTail _ (by decide) new_head_not_in_tail
  rw [h] at hno
  exact hno ⟨stringBytes messageHead, stringBytes messageTail, by
    rw [message_contains_background]; simp⟩

theorem copyHeader_keeps_first (w : HeaderMap) (src : Option HeaderMap) (key v : String)
    (hw : w key = some [v]) : ∃ vs, copyHeader w src key = some (v :: vs) := by
  unfold copyHeader
  split
  · exact ⟨[], hw⟩
  · exact ⟨[], hw⟩
  · next x xs _ => exact ⟨x :: xs, by simp [hw]⟩

theorem overrideProxy_never_modifies (env : Env) (u : URL) (fi : Nat) (w : HeaderMap)
    (r : Request) : ((overrideProxy env u fi).ServeHTTP env w r).modified = false := by
  show ((overrideProxy env u fi).reply env w _).1 = false
  unfold ReverseProxy.reply
  split <;> rfl

/-- Whenever a reverse proxy sends a reply at all, the headers already on the response writer
are still first in it. -/
theorem reply_keeps_writer_header (env : Env) (p : ReverseProxy) (w : HeaderMap)
    (outreq : Request) (key v : String) (hw : w key = some [v]) (st : Nat) (h : HeaderMap)
    (b : Bytes) (hr : (p.reply env w outreq).2 = ClientOutcome.response st h b) :
    ∃ vs, h key = some (v :: vs) := by
  unfold ReverseProxy.reply at hr
  split at hr
  · cases hr; exact ⟨[], hw⟩
  · cases hr
  · split at hr
    · cases hr; exact copyHeader_keeps_first w _ key v hw
    · simp only at hr
      split at hr
      · cases hr
      · cases hr; exact ⟨[], hw⟩
      · cases hr; exact copyHeader_keeps_first w _ key v hw

theorem versionHeader_at_version (r : Request) (hp : r.URL.Path = "/_version") :
    versionHeader r "X-Tiny-SSL-Version" = some [Version] := by
  simp [versionHeader, hp, HeaderMap.Add, emptyHeader]

/-- For a request for `/_version`, on any state and in any surroundings: if the client gets a
reply at all, the reply carries `X-Tiny-SSL-Version` with `Version` as its first value. -/
theorem version_header_on_every_reply (env : Env) (startup : URL) (fi : Nat) (st : Shared)
    (r : Request) (hp : r.URL.Path = "/_version") (code : Nat) (h : HeaderMap) (b : Bytes)
    (hr : (handler env startup fi st r).2.client = ClientOutcome.response code h b) :
    ∃ vs, h "X-Tiny-SSL-Version" = some (Version :: vs) := by
  have hw := versionHeader_at_version r hp
  have hdef : ∀ (hd : (handlerDefault env startup fi st (versionHeader r) r).2.client
      = ClientOutcome.response code h b), ∃ vs, h "X-Tiny-SSL-Version" = some (Version :: vs) := by
    intro hd
    unfold handlerDefault at hd
    split at hd
    · cases hd
    · exact reply_keeps_writer_header env _ _ _ _ _ hw code h b hd
  unfold handler at hr
  simp only at hr
  split at hr
  · split at hr
    · split at hr
      · cases hr
      · cases hr; exact ⟨[], hw⟩
      · exact reply_keeps_writer_header env _ _ _ _ _ hw code h b hr
    · exact hdef hr
  · exact hdef hr

/-- C10, evaluated: a request for `/_version` while the start-up target `down.example` refuses
the connection. The header is put on the response writer, but the panic in `rewriteBody` ends
the request before anything is written: the client gets no reply and so no
`X-Tiny-SSL-Version`. With the start-up target `a.example`, which answers, the reply carries
the header. -/
theorem version_header_lost_when_backend_down :
    versionHeader (sampleRequest "/_version" []) "X-Tiny-SSL-Version" = some [Version] ∧
    (let o := (handler sampleEnv downURL 0 (initial downURL) (sampleRequest "/_version" [])).2
     o.client.status = none ∧ o.client.headerValues "X-Tiny-SSL-Version" = none) ∧
    (let o := (handler sampleEnv upURL 0 (initial upURL) (sampleRequest "/_version" [])).2
     o.client.status = some 200 ∧
       o.client.headerValues "X-Tiny-SSL-Version" = some ["0.21.0"]) := by
  refine ⟨?_, ⟨?_, ?_⟩, ⟨?_, ?_⟩⟩ <;> rfl

end TinySSL
